import Mathlib

/-!
Verification model of the `organizatutour` repository.

The repository holds two React + Firestore variants of a seat-sharing app:

* the FungiTour variant (`src/unnamed/part_000`): a single tour document with
  `payments`, `busSignups` and `vehicles/{id}/reservations` collections, whose
  seat claim runs inside `runTransaction`;
* the Transporte variant (`src/src/App.jsx`): flat `vehiculos`, `reservas` and
  `reservasMicrobus` collections, whose seat claims check a locally cached,
  listener-delivered view and then insert unconditionally.

Each handler is embedded as a pure function over an explicit store state.
Firestore writes become list appends / filters; `serverTimestamp` ordering is
modelled by appending (listeners order by `createdAt` ascending); `addDoc` /
`doc(col)` id generation is modelled by a `nextId` counter.  Alerts and thrown
errors become values of an explicit error type.
-/

namespace OrganizaTuTour

/-- Model of JavaScript `String.prototype.trim`: drop leading and trailing
whitespace characters. -/
def jsTrim (s : String) : String :=
  ⟨((s.data.dropWhile Char.isWhitespace).reverse.dropWhile Char.isWhitespace).reverse⟩

/-- Model of JavaScript `String.prototype.toLowerCase` (over the alphabet the
app actually compares). -/
def jsLower (s : String) : String :=
  ⟨s.data.map Char.toLower⟩

namespace FungiTour

/-- Typed failures of the FungiTour handlers.  Each constructor stands for one
`alert` message or thrown `Error` of `src/unnamed/part_000`:
`nameRequired` for the "escribe tu nombre" alerts, `invalidSeats` for
"Ingresa un número de asientos válido (1-50).", `notFound` for
"El vehículo ya no existe.", `full` for "No hay asientos disponibles en este
vehículo.", `alreadyClaimed` for "Ya reservaste un asiento en este vehículo.",
`notAuthorized` for the "Solo puedes..." / "Solo el dueño..." alerts. -/
inductive ClaimError where
  | nameRequired
  | invalidSeats
  | notFound
  | full
  | alreadyClaimed
  | notAuthorized
deriving DecidableEq, Repr

/-- A document of `tours/{tourId}/vehicles/{vehicleId}/reservations`.
The `name` field is read back with `d.data().name || ""` in the code, so it is
kept optional here. -/
structure Reservation where
  vehicleId : Nat
  rid : Nat
  rname : Option String
deriving DecidableEq, Repr

/-- A document of `tours/{tourId}/vehicles`.  `ownerName` and `seatsTotal` are
read with optional chaining / `|| 0` defaults in the code, so they are kept
optional here. -/
structure Vehicle where
  id : Nat
  ownerName : Option String
  seatsTotal : Option Int
deriving DecidableEq, Repr

/-- The committed Firestore state of one tour: `vehicles` documents, the
reservation documents of their subcollections (flat, keyed by `vehicleId`, as
in Firestore a subcollection document is its own document and survives its
parent), and the `payments` / `busSignups` collections.  `nextId` models the
client-side generation of fresh document ids. -/
structure TourState where
  vehicles : List Vehicle
  reservations : List Reservation
  payments : List String
  busSignups : List String
  nextId : Nat
deriving DecidableEq, Repr

/-- Document lookup `tx.get(doc(tourRef, "vehicles", vehicleId))`. -/
def findVehicle (s : TourState) (vid : Nat) : Option Vehicle :=
  s.vehicles.find? (fun v => v.id == vid)

/-- The reservation subcollection of one vehicle, as read back by
`getDocs(collection(vehicleDoc, "reservations"))`. -/
def resFor (s : TourState) (vid : Nat) : List Reservation :=
  s.reservations.filter (fun r => r.vehicleId == vid)

/-- The identity comparison `stored?.toLowerCase() === name.trim().toLowerCase()`
used by `cancelMySeat` (against the reservation name) and `deleteMyVehicle`
(against the owner name).  A missing stored value (`undefined`) never equals a
string, hence `none` yields `false`. -/
def identityMatches (stored : Option String) (nm : String) : Bool :=
  match stored with
  | none => false
  | some o => jsLower o == jsLower (jsTrim nm)

/-- Handler `handlePayment`: requires a non-empty trimmed name, then
`addDoc(payments, { name: name.trim(), createdAt: serverTimestamp() })`. -/
def handlePayment (s : TourState) (nm : String) : Except ClaimError TourState :=
  if jsTrim nm = "" then .error .nameRequired
  else .ok { s with payments := s.payments ++ [jsTrim nm] }

/-- Handler `handleJoinBus`: requires a non-empty trimmed name, then
`addDoc(busSignups, { name: name.trim(), createdAt: serverTimestamp() })`. -/
def handleJoinBus (s : TourState) (nm : String) : Except ClaimError TourState :=
  if jsTrim nm = "" then .error .nameRequired
  else .ok { s with busSignups := s.busSignups ++ [jsTrim nm] }

/-- Handler `handleCreateVehicle`: requires a non-empty trimmed name and
`Number.isInteger(total) && 1 <= total && total <= 50` (the input is modelled
as an integer, so only the range check remains), then adds the vehicle with
`ownerName: name.trim()`. -/
def handleCreateVehicle (s : TourState) (nm : String) (total : Int) :
    Except ClaimError TourState :=
  if jsTrim nm = "" then .error .nameRequired
  else if total < 1 ∨ 50 < total then .error .invalidSeats
  else .ok { s with
    vehicles := s.vehicles ++ [⟨s.nextId, some (jsTrim nm), some total⟩],
    nextId := s.nextId + 1 }

/-- The body of the `runTransaction` callback of `reserveSeat`, evaluated over
the snapshot it reads.  In the code, only the vehicle document is read through
`tx.get`; the reservation subcollection is read with a plain (non-transactional)
`getDocs` query.  Checks run in the code order: existence, then
`current >= (v.seatsTotal || 0)`, then the duplicate-name check; on success the
value written by `tx.set` is the trimmed claimant name. -/
def reserveSeatTxBody (snap : TourState) (vid : Nat) (nm : String) :
    Except ClaimError String :=
  match findVehicle snap vid with
  | none => .error .notFound
  | some v =>
    if v.seatsTotal.getD 0 ≤ ((resFor snap vid).length : Int) then .error .full
    else if (resFor snap vid).any
        (fun r => jsLower (r.rname.getD "") == jsLower (jsTrim nm)) then
      .error .alreadyClaimed
    else .ok (jsTrim nm)

/-- Appending the reservation document written by `tx.set(doc(resCol), ...)`:
a fresh id and the (already trimmed) claimant name. -/
def pushReservation (s : TourState) (vid : Nat) (w : String) : TourState :=
  { s with
    reservations := s.reservations ++ [⟨vid, s.nextId, some w⟩],
    nextId := s.nextId + 1 }

/-- Handler `reserveSeat` under serial execution: `requireName` first, then the
transaction body evaluated against the current committed state, then the write. -/
def reserveSeat (s : TourState) (vid : Nat) (nm : String) :
    Except ClaimError TourState :=
  if jsTrim nm = "" then .error .nameRequired
  else
    match reserveSeatTxBody s vid nm with
    | .error e => .error e
    | .ok w => .ok (pushReservation s vid w)

/-- Outcome of one attempt of the optimistic Firestore transaction. -/
inductive TxOutcome where
  | committed (next : TourState)
  | conflict
  | failed (e : ClaimError)
deriving DecidableEq, Repr

/-- One attempt of the `reserveSeat` transaction under concurrency: the body is
evaluated on the snapshot `snap` it read, and Firestore commits the attempt
against the current state `cur` iff every document of the transactional read
set is unchanged.  The read set of this transaction is only the vehicle
document (`tx.get(vehicleDoc)`); the `getDocs` read of the reservation
subcollection is not transactional and is not validated.  No operation of the
app ever updates a vehicle document in place, so document-value equality
faithfully stands for the version check. -/
def runClaimOnce (snap cur : TourState) (vid : Nat) (nm : String) : TxOutcome :=
  match reserveSeatTxBody snap vid nm with
  | .error e => .failed e
  | .ok w =>
    if findVehicle cur vid = findVehicle snap vid then
      .committed (pushReservation cur vid w)
    else .conflict

/-- Handler `cancelMySeat(vehicleId, reservationId, reservationName)`: empty
trimmed name alerts "Escribe tu nombre..."; a mismatch of
`reservationName?.toLowerCase() !== name.trim().toLowerCase()` alerts "Solo
puedes cancelar tu propio asiento."; otherwise `deleteDoc` of the reservation
document. -/
def removeReservationDoc (s : TourState) (vid rid : Nat) : TourState :=
  { s with reservations :=
      s.reservations.filter (fun r => !(r.vehicleId == vid && r.rid == rid)) }

def cancelMySeat (s : TourState) (vid rid : Nat) (resName : Option String)
    (nm : String) : Except ClaimError TourState :=
  if jsTrim nm = "" then .error .nameRequired
  else if identityMatches resName nm then .ok (removeReservationDoc s vid rid)
  else .error .notAuthorized

/-- First half of `deleteMyVehicle`: `Promise.all(resSnap.docs.map(deleteDoc))`
deletes every reservation document of the vehicle. -/
def deleteVehicleReservations (s : TourState) (vid : Nat) : TourState :=
  { s with reservations := s.reservations.filter (fun r => !(r.vehicleId == vid)) }

/-- Second half of `deleteMyVehicle`: `deleteDoc(vehicleDoc)`. -/
def deleteVehicleDoc (s : TourState) (vid : Nat) : TourState :=
  { s with vehicles := s.vehicles.filter (fun v => !(v.id == vid)) }

/-- Handler `deleteMyVehicle(vehicleId, ownerName)`: a mismatch of
`ownerName?.toLowerCase() !== name.trim().toLowerCase()` alerts "Solo el dueño
puede eliminar su vehículo."; otherwise it deletes the reservations first and
then the vehicle document. -/
def deleteMyVehicle (s : TourState) (vid : Nat) (own : Option String)
    (nm : String) : Except ClaimError TourState :=
  if identityMatches own nm then
    .ok (deleteVehicleDoc (deleteVehicleReservations s vid) vid)
  else .error .notAuthorized

/-- The occupancy the card UI derives: `taken = v.reservations?.length || 0`. -/
def takenSeats (s : TourState) (vid : Nat) : Nat :=
  (resFor s vid).length

/-- The total the card UI derives: `total = v.seatsTotal || 0`. -/
def totalSeatsOf (v : Vehicle) : Int :=
  v.seatsTotal.getD 0

/-- The free-seat count the card UI derives:
`free = Math.max(total - taken, 0)`. -/
def freeSeats (s : TourState) (v : Vehicle) : Int :=
  max (totalSeatsOf v - (takenSeats s v.id : Int)) 0

/-- The reserve button is rendered with `disabled={free === 0}`, so the control
is offered exactly when `free` is nonzero. -/
def reserveEnabled (s : TourState) (v : Vehicle) : Bool :=
  !(freeSeats s v == 0)

/-- The lowercased claimant key under which `reserveSeat` deduplicates:
`(d.data().name || "").toLowerCase()`. -/
def claimKey (r : Reservation) : String :=
  jsLower (r.rname.getD "")

/-- No vehicle holds two reservations with the same claimant identity. -/
def noDupClaims (s : TourState) : Prop :=
  s.reservations.Pairwise
    (fun a b => ¬(a.vehicleId = b.vehicleId ∧ claimKey a = claimKey b))

end FungiTour

namespace Transporte

/-- Typed failures of the Transporte handlers (`src/src/App.jsx`), one per
`alert`: `nameRequired` for "Por favor, ingresa tu nombre y apellido.",
`meetingPointRequired` for "Por favor, selecciona un punto de encuentro.",
`noMicrobus` for "No hay microbus disponible en este momento.",
`alreadyClaimed` for "Ya tienes una reserva...", `full` for "Este microbus
está lleno.", `notAuthorized` for "Solo puedes cancelar tu propia reserva." -/
inductive AppError where
  | nameRequired
  | meetingPointRequired
  | noMicrobus
  | alreadyClaimed
  | full
  | notAuthorized
deriving DecidableEq, Repr

/-- A document of the `vehiculos` collection. -/
structure Vehiculo where
  id : Nat
  propietario : String
  asientosDisponibles : Int
  puntoEncuentro : String
  tipoVehiculo : String
deriving DecidableEq, Repr

/-- A document of the `reservas` collection (the denormalized `propietario`
and `puntoEncuentro` copies are written deliberately at claim time). -/
structure Reserva where
  rid : Nat
  vehiculoId : Nat
  pasajero : String
  propietario : String
  puntoEncuentro : String
deriving DecidableEq, Repr

/-- A document of the `reservasMicrobus` collection. -/
structure ReservaMicro where
  rid : Nat
  vehiculoId : Nat
  pasajero : String
  propietario : String
deriving DecidableEq, Repr

/-- The committed Firestore state seen by the Transporte variant; the
listener-delivered local arrays `vehiculos`, `reservas` and `reservasMicrobus`
mirror it. -/
structure AppState where
  vehiculos : List Vehiculo
  reservas : List Reserva
  reservasMicrobus : List ReservaMicro
  nextId : Nat
deriving DecidableEq, Repr

/-- The staged `datos` that `confirmarOfrecerVehiculo` writes with `addDoc`. -/
structure VehiculoWrite where
  propietario : String
  asientosDisponibles : Int
  puntoEncuentro : String
  tipoVehiculo : String
deriving DecidableEq, Repr

/-- Handler `handleOfrecerVehiculo` followed by the confirmed
`confirmarOfrecerVehiculo` write.  The handler checks only `requireName` and a
truthy `puntoEncuentro`; `asientosDisponibles` is passed through
`Number(...)` with no range or integrality check in the handler (an empty
field yields `Number("") === 0`).  The input is modelled as the integer the
conversion produced. -/
def handleOfrecerVehiculo (nombre punto tipo : String) (asientos : Int) :
    Except AppError VehiculoWrite :=
  if jsTrim nombre = "" then .error .nameRequired
  else if punto = "" then .error .meetingPointRequired
  else .ok ⟨jsTrim nombre, asientos, punto, tipo⟩

/-- The duplicate-claim probe of `handleReservarAsiento`:
`reservas.find(r => r.vehiculoId === vehiculoId && r.pasajero.toLowerCase()
=== nombreUsuario.trim().toLowerCase())`. -/
def hasReserva (s : AppState) (vid : Nat) (nombre : String) : Bool :=
  s.reservas.any
    (fun r => r.vehiculoId == vid && jsLower r.pasajero == jsLower (jsTrim nombre))

/-- Handler `handleReservarAsiento` followed by the confirmed
`confirmarReservarAsiento` write.  The handler checks `requireName` and the
duplicate claim against the locally cached `reservas` list, then inserts
unconditionally — it performs no seat-count (Full) check. -/
def handleReservarAsiento (s : AppState) (nombre : String) (vid : Nat)
    (prop punto : String) : Except AppError AppState :=
  if jsTrim nombre = "" then .error .nameRequired
  else if hasReserva s vid nombre then .error .alreadyClaimed
  else .ok { s with
    reservas := s.reservas ++ [⟨s.nextId, vid, jsTrim nombre, prop, punto⟩],
    nextId := s.nextId + 1 }

/-- The `microbuses` local array: the listener over
`vehiculos where tipoVehiculo == "renta"`. -/
def microbusesOf (s : AppState) : List Vehiculo :=
  s.vehiculos.filter (fun v => v.tipoVehiculo == "renta")

/-- The duplicate-claim probe of `handleReservarMicrobus` over
`reservasMicrobus`. -/
def hasReservaMicro (s : AppState) (mid : Nat) (nombre : String) : Bool :=
  s.reservasMicrobus.any
    (fun r => r.vehiculoId == mid && jsLower r.pasajero == jsLower (jsTrim nombre))

/-- The occupancy count of one microbus:
`reservasMicrobus.filter(r => r.vehiculoId === microbusId).length`. -/
def occupiedMicro (s : AppState) (mid : Nat) : Nat :=
  (s.reservasMicrobus.filter (fun r => r.vehiculoId == mid)).length

/-- Handler `handleReservarMicrobus` followed by the confirmed
`confirmarReservarMicrobus` write: `requireName`, then the empty-`microbuses`
guard, then the duplicate claim check, then
`asientosOcupados >= asientosDisponibles` — both admission checks run against
the locally cached lists — then the unconditional insert (`cap` is the
`asientosDisponibles` value passed from the clicked card). -/
def handleReservarMicrobus (s : AppState) (nombre : String) (mid : Nat)
    (prop : String) (cap : Int) : Except AppError AppState :=
  if jsTrim nombre = "" then .error .nameRequired
  else if (microbusesOf s).length = 0 then .error .noMicrobus
  else if hasReservaMicro s mid nombre then .error .alreadyClaimed
  else if cap ≤ (occupiedMicro s mid : Int) then .error .full
  else .ok { s with
    reservasMicrobus := s.reservasMicrobus ++ [⟨s.nextId, mid, jsTrim nombre, prop⟩],
    nextId := s.nextId + 1 }

/-- Occupancy helper `getAsientosOcupados`. -/
def getAsientosOcupados (s : AppState) (vid : Nat) : Nat :=
  (s.reservas.filter (fun r => r.vehiculoId == vid)).length

/-- Handler `handleCancelarReserva(reservaId, pasajero)`: a mismatch of
`pasajero.toLowerCase() !== nombreUsuario.trim().toLowerCase()` alerts "Solo
puedes cancelar tu propia reserva."; otherwise the deletion runs iff the user
accepts the `confirm` dialog (modelled by `confirmed`). -/
def handleCancelarReserva (s : AppState) (nombre : String) (rid : Nat)
    (pasajero : String) (confirmed : Bool) : Except AppError AppState :=
  if jsLower pasajero == jsLower (jsTrim nombre) then
    if confirmed then
      .ok { s with reservas := s.reservas.filter (fun r => !(r.rid == rid)) }
    else .ok s
  else .error .notAuthorized

end Transporte

namespace FungiTour

/-- Race scenario, initial committed state: one vehicle with `seatsTotal = 2`
and one committed reservation ("ana"), i.e. exactly one seat remains. -/
def raceS0 : TourState :=
  ⟨[⟨1, some "dana", some 2⟩], [⟨1, 0, some "ana"⟩], [], [], 1⟩

/-- Race scenario after the first concurrent claim ("Beto") commits. -/
def raceS1 : TourState :=
  ⟨[⟨1, some "dana", some 2⟩],
   [⟨1, 0, some "ana"⟩, ⟨1, 1, some "Beto"⟩], [], [], 2⟩

/-- Race scenario after the second concurrent claim ("Carla"), which read the
same snapshot as the first, also commits: three reservations on two seats. -/
def raceS2 : TourState :=
  ⟨[⟨1, some "dana", some 2⟩],
   [⟨1, 0, some "ana"⟩, ⟨1, 1, some "Beto"⟩, ⟨1, 2, some "Carla"⟩], [], [], 3⟩

/-- Counterexample state for the admission-order claim: a full one-seat
vehicle whose single seat is held by "ana". -/
def orderCeState : TourState :=
  ⟨[⟨1, some "dana", some 1⟩], [⟨1, 0, some "ana"⟩], [], [], 1⟩

/-- The claimSeat admission rule in the order the code actually runs it
(amended claim C2): require a name, re-read the Offer (`NotFound`), re-read
the reservation set, check `Full` first, then `AlreadyClaimed`, then insert. -/
def reserveSeatAmendedSpec (s : TourState) (vid : Nat) (nm : String) :
    Except ClaimError TourState :=
  if jsTrim nm = "" then .error .nameRequired
  else
    match findVehicle s vid with
    | none => .error .notFound
    | some v =>
      if v.seatsTotal.getD 0 ≤ ((resFor s vid).length : Int) then .error .full
      else if (resFor s vid).any
          (fun r => jsLower (r.rname.getD "") == jsLower (jsTrim nm)) then
        .error .alreadyClaimed
      else .ok (pushReservation s vid (jsTrim nm))

/-- Counterexample state for the duplicate-claim claim: a full two-seat
vehicle whose seats are held by "ana" and "beto". -/
def dupCeState : TourState :=
  ⟨[⟨1, some "dana", some 2⟩],
   [⟨1, 0, some "ana"⟩, ⟨1, 1, some "beto"⟩], [], [], 2⟩

/-- Witness state for the duplicate-claim theorem: a three-seat vehicle with
one reservation held by "mara". -/
def dupWitState : TourState :=
  ⟨[⟨1, some "dana", some 3⟩], [⟨1, 0, some "mara"⟩], [], [], 1⟩

/-- The state `dupWitState` reaches after "Nina" claims a seat. -/
def dupWitState2 : TourState :=
  ⟨[⟨1, some "dana", some 3⟩],
   [⟨1, 0, some "mara"⟩, ⟨1, 1, some "Nina"⟩], [], [], 2⟩

/-- Witness state for the Full rejection: a two-seat vehicle with both seats
taken. -/
def fullWitState : TourState :=
  ⟨[⟨2, some "dana", some 2⟩],
   [⟨2, 0, some "ana"⟩, ⟨2, 1, some "beto"⟩], [], [], 2⟩

/-- Counterexample state for the authorization claim: a reservation held by
"Ana". -/
def authCeState : TourState :=
  ⟨[⟨1, some "dana", some 2⟩], [⟨1, 5, some "Ana"⟩], [], [], 6⟩

/-- Witness state for the authorization theorem. -/
def authWitState : TourState :=
  ⟨[⟨1, some "Dana", some 2⟩], [⟨1, 4, some "Luz"⟩], [], [], 5⟩

/-- Witness state for the cascade-delete theorem: two vehicles, each with one
reservation. -/
def cascadeWitState : TourState :=
  ⟨[⟨1, some "Dana", some 4⟩, ⟨2, some "Eli", some 3⟩],
   [⟨1, 0, some "ana"⟩, ⟨2, 1, some "beto"⟩], [], [], 2⟩

/-- Witness state for the free-seat read model: a two-seat vehicle carrying
three committed reservations (an overbooked state). -/
def overbookedState : TourState :=
  ⟨[⟨1, some "dana", some 2⟩],
   [⟨1, 0, some "ana"⟩, ⟨1, 1, some "beto"⟩, ⟨1, 2, some "caro"⟩], [], [], 3⟩

/-- The overbooked vehicle card of `overbookedState`. -/
def overbookedVehicle : Vehicle := ⟨1, some "dana", some 2⟩

/-- Witness state for the trimmed-identity theorem. -/
def trimWitState : TourState :=
  ⟨[⟨1, some "dana", some 2⟩], [], [], [], 2⟩

/-- The state `trimWitState` reaches after " Ana " records a payment. -/
def trimWitState2 : TourState :=
  ⟨[⟨1, some "dana", some 2⟩], [], ["Ana"], [], 2⟩

/-- The state `trimWitState` reaches after " Ana " claims a seat on vehicle 1. -/
def trimWitState3 : TourState :=
  ⟨[⟨1, some "dana", some 2⟩], [⟨1, 2, some "Ana"⟩], [], [], 3⟩

end FungiTour

namespace Transporte

/-- Counterexample state for the non-transactional claim-path claim: one
two-seat vehicle whose two seats are already reserved by "ana" and "beto". -/
def fullCarState : AppState :=
  ⟨[⟨1, "Dana", 2, "Santa Tecla", "propio"⟩],
   [⟨0, 1, "ana", "Dana", "Santa Tecla"⟩, ⟨1, 1, "beto", "Dana", "Santa Tecla"⟩],
   [], 2⟩

/-- The state `fullCarState` reaches after "Carla" claims a seat anyway. -/
def fullCarState2 : AppState :=
  ⟨[⟨1, "Dana", 2, "Santa Tecla", "propio"⟩],
   [⟨0, 1, "ana", "Dana", "Santa Tecla"⟩, ⟨1, 1, "beto", "Dana", "Santa Tecla"⟩,
    ⟨2, 1, "Carla", "Dana", "Santa Tecla"⟩],
   [], 3⟩

/-- Witness state for the claim-path theorem: a full vehicle and a microbus
with one free seat. -/
def pathWitState : AppState :=
  ⟨[⟨1, "Rosa", 1, "Metrocentro", "propio"⟩, ⟨5, "Dana", 2, "Multiplaza", "renta"⟩],
   [⟨0, 1, "ana", "Rosa", "Metrocentro"⟩],
   [⟨1, 5, "beto", "Dana"⟩], 2⟩

/-- The state `pathWitState` reaches after "Caro" claims the full vehicle. -/
def pathWitState2 : AppState :=
  ⟨[⟨1, "Rosa", 1, "Metrocentro", "propio"⟩, ⟨5, "Dana", 2, "Multiplaza", "renta"⟩],
   [⟨0, 1, "ana", "Rosa", "Metrocentro"⟩, ⟨2, 1, "Caro", "Rosa", "Metrocentro"⟩],
   [⟨1, 5, "beto", "Dana"⟩], 3⟩

/-- The state `pathWitState` reaches after "Caro" instead claims the microbus. -/
def pathWitState3 : AppState :=
  ⟨[⟨1, "Rosa", 1, "Metrocentro", "propio"⟩, ⟨5, "Dana", 2, "Multiplaza", "renta"⟩],
   [⟨0, 1, "ana", "Rosa", "Metrocentro"⟩],
   [⟨1, 5, "beto", "Dana"⟩, ⟨2, 5, "Caro", "Dana"⟩], 3⟩

/-- Witness state for the microbus Full rejection: a two-seat microbus with
both seats taken. -/
def fullMicroState : AppState :=
  ⟨[⟨1, "Dana", 2, "Centro histórico", "renta"⟩],
   [],
   [⟨0, 1, "ana", "Dana"⟩, ⟨1, 1, "beto", "Dana"⟩], 2⟩

/-- Witness state for the cancel-authorization theorem. -/
def cancelWitState : AppState :=
  ⟨[⟨1, "Dana", 4, "Santa Tecla", "propio"⟩],
   [⟨7, 1, "Luz", "Dana", "Santa Tecla"⟩], [], 8⟩

end Transporte

end OrganizaTuTour

open OrganizaTuTour OrganizaTuTour.FungiTour OrganizaTuTour.Transporte

/-- C1: the claim asserts the transactional claim path keeps the committed
reservation count at or below `totalSeats` and that two concurrent claims for
the last seat cannot both succeed.  The code violates this: inside
`runTransaction` the reservation subcollection is read with a plain `getDocs`
query, so only the vehicle document is in the transactional read set, and a
concurrent reservation insert causes no conflict.  Here two claims for the
last seat of a two-seat vehicle both read snapshot `raceS0` and both commit
(no operation touched the vehicle document), leaving three committed
reservations on two seats — the overbooking the claim rules out.  This
contradicts the code's own stated intent ("con bloqueo transaccional"), so it
is a code bug rather than a spec error. -/
theorem c1_overbooking_race :
    runClaimOnce raceS0 raceS0 1 "Beto" = TxOutcome.committed raceS1 ∧
    runClaimOnce raceS0 raceS1 1 "Carla" = TxOutcome.committed raceS2 ∧
    (findVehicle raceS2 1).map totalSeatsOf = some 2 ∧
    takenSeats raceS2 1 = 3 :=
  ⟨rfl, rfl, rfl, rfl⟩

/-- C2 counterexample: the claim states the `AlreadyClaimed` check runs before
the `Full` check, so a requester who already holds a seat on a full Offer
fails `AlreadyClaimed`.  On `orderCeState` (one seat, held by "ana"), the
requester "Ana" matches the existing reservation case-insensitively, yet
`reserveSeat` reports `full`, because the code checks occupancy first. -/
theorem c2_order_counterexample :
    ((resFor orderCeState 1).any
      (fun r => jsLower (r.rname.getD "") == jsLower (jsTrim "Ana"))) = true ∧
    reserveSeat orderCeState 1 "Ana" = .error .full ∧
    ClaimError.full ≠ ClaimError.alreadyClaimed :=
  ⟨rfl, rfl, by decide⟩

/-- C2 (amended): the transactional claim executes as a single read-modify-
write in this order — require a name, re-read the Offer (`NotFound`), re-read
the reservation set, fail `Full` if the count is at least `totalSeats`, fail
`AlreadyClaimed` if an existing claimant matches case-insensitively, else
insert the trimmed-name reservation.  In particular the `Full` check precedes
the `AlreadyClaimed` check, so an already-seated requester on a full Offer
gets `Full`. -/
theorem c2_admission_order (s : TourState) (vid : Nat) (nm : String) :
    reserveSeat s vid nm = reserveSeatAmendedSpec s vid nm := by
  unfold reserveSeat reserveSeatAmendedSpec reserveSeatTxBody
  by_cases h0 : jsTrim nm = ""
  · simp [h0]
  · simp only [h0, if_false]
    cases hfv : findVehicle s vid with
    | none => rfl
    | some v =>
      by_cases h1 : v.seatsTotal.getD 0 ≤ ((resFor s vid).length : Int)
      · simp [h1]
      · by_cases h2 : (resFor s vid).any
            (fun r => jsLower (r.rname.getD "") == jsLower (jsTrim nm))
        · simp [h1, h2]
        · simp [h1, h2]


/-- C3 counterexample: the claim states a matching claimant always fails with
`AlreadyClaimed`.  On `dupCeState` (two seats, held by "ana" and "beto"), the
requester "  Beto " matches "beto" after trimming and lowercasing, yet
`reserveSeat` reports `full`, because the occupancy check runs first. -/
theorem c3_dup_counterexample :
    ((resFor dupCeState 1).any
      (fun r => jsLower (r.rname.getD "") == jsLower (jsTrim "  Beto "))) = true ∧
    reserveSeat dupCeState 1 "  Beto " = .error .full ∧
    ClaimError.full ≠ ClaimError.alreadyClaimed :=
  ⟨rfl, rfl, by decide⟩

/-- C3 (amended): a claimSeat call whose claimant identity matches an existing
reservation on the Offer (case-insensitive, requester trimmed) always fails —
with `AlreadyClaimed` when seats remain, with `Full` when the Offer is already
full, since the Full check runs first — and inserts nothing; consequently
sequential claims preserve "at most one committed Reservation per (Offer,
claimant identity) pair". -/
theorem c3_no_duplicate_claim :
    (∀ s vid nm,
      ((resFor s vid).any
        (fun r => jsLower (r.rname.getD "") == jsLower (jsTrim nm))) = true →
      ∃ e, reserveSeat s vid nm = .error e) ∧
    (∀ s vid nm s2, noDupClaims s → reserveSeat s vid nm = .ok s2 →
      noDupClaims s2) := by
  constructor
  · intro s vid nm hmatch
    by_cases h0 : jsTrim nm = ""
    · exact ⟨.nameRequired, by simp [reserveSeat, h0]⟩
    · cases hfv : findVehicle s vid with
      | none => exact ⟨.notFound, by simp [reserveSeat, reserveSeatTxBody, h0, hfv]⟩
      | some v =>
        by_cases h1 : v.seatsTotal.getD 0 ≤ ((resFor s vid).length : Int)
        · exact ⟨.full, by simp [reserveSeat, reserveSeatTxBody, h0, hfv, h1]⟩
        · exact ⟨.alreadyClaimed,
            by simp [reserveSeat, reserveSeatTxBody, h0, hfv, h1, hmatch]⟩
  · intro s vid nm s2 hnd hok
    have h0 : ¬jsTrim nm = "" := by
      intro h; simp [reserveSeat, h] at hok
    cases hfv : findVehicle s vid with
    | none => simp [reserveSeat, reserveSeatTxBody, h0, hfv] at hok
    | some v =>
      by_cases h1 : v.seatsTotal.getD 0 ≤ ((resFor s vid).length : Int)
      · simp [reserveSeat, reserveSeatTxBody, h0, hfv, h1] at hok
      · by_cases h2 : ((resFor s vid).any
            (fun r => jsLower (r.rname.getD "") == jsLower (jsTrim nm))) = true
        · simp [reserveSeat, reserveSeatTxBody, h0, hfv, h1, h2] at hok
        · have hs2 : s2 = pushReservation s vid (jsTrim nm) := by
            simp [reserveSeat, reserveSeatTxBody, h0, hfv, h1, h2] at hok
            exact hok.symm
          subst hs2
          have hall : ∀ r ∈ resFor s vid,
              ¬(jsLower (r.rname.getD "") == jsLower (jsTrim nm)) = true := by
            intro r hr hc
            exact h2 (List.any_eq_true.mpr ⟨r, hr, hc⟩)
          unfold noDupClaims pushReservation at *
          rw [List.pairwise_append]
          refine ⟨hnd, ?_, ?_⟩
          · simp
          · intro a ha b hb
            simp only [List.mem_singleton] at hb
            subst hb
            rintro ⟨hvid, hkey⟩
            have hmem : a ∈ resFor s vid :=
              List.mem_filter.mpr ⟨ha, by simp [hvid]⟩
            apply hall a hmem
            have hk : claimKey a = jsLower (jsTrim nm) := by
              simpa [claimKey] using hkey
            simp only [claimKey] at hk
            exact beq_iff_eq.mpr hk

/-- Witness for `c3_no_duplicate_claim`: the requester "MARA" matches the
existing reservation "mara" on `dupWitState` and is rejected; a fresh claim by
"Nina" preserves the no-duplicate invariant. -/
theorem c3_no_duplicate_claim_witness :
    (∃ e, reserveSeat dupWitState 1 "MARA" = .error e) ∧ noDupClaims dupWitState2 :=
  ⟨c3_no_duplicate_claim.1 dupWitState 1 "MARA" rfl,
   c3_no_duplicate_claim.2 dupWitState 1 "Nina" dupWitState2
      (by unfold noDupClaims; decide) rfl⟩

/-- C4: a claimSeat call against an Offer whose current reservation count has
reached `totalSeats` fails with `Full` and inserts nothing — for the
transactional `reserveSeat` unconditionally, and for the non-transactional
`handleReservarMicrobus` whenever the requester holds no existing reservation
there (a different claimant), exactly the scenario of the claim. -/
theorem c4_full_rejected :
    (∀ s vid v nm, jsTrim nm ≠ "" → findVehicle s vid = some v →
        v.seatsTotal.getD 0 ≤ ((resFor s vid).length : Int) →
        reserveSeat s vid nm = .error .full) ∧
    (∀ s nombre mid prop cap, jsTrim nombre ≠ "" →
        (microbusesOf s).length ≠ 0 →
        hasReservaMicro s mid nombre = false →
        cap ≤ ((occupiedMicro s mid : Nat) : Int) →
        handleReservarMicrobus s nombre mid prop cap = .error .full) := by
  constructor
  · intro s vid v nm h0 hfv h1
    simp [reserveSeat, reserveSeatTxBody, h0, hfv, h1]
  · intro s nombre mid prop cap h0 h1 h2 h3
    simp [handleReservarMicrobus, h0, h1, h2, h3]

/-- Witness for `c4_full_rejected`: with `totalSeats = 2` and two committed
reservations, a third claimant is rejected with `Full` on both claim paths. -/
theorem c4_full_rejected_witness :
    reserveSeat fullWitState 2 "Carla" = .error .full ∧
    handleReservarMicrobus fullMicroState "Caro" 1 "Dana" 2 = .error .full :=
  ⟨c4_full_rejected.1 fullWitState 2 ⟨2, some "dana", some 2⟩ "Carla"
      (by decide) rfl (by decide),
   c4_full_rejected.2 fullMicroState "Caro" 1 "Dana" 2
      (by decide) (by decide) rfl (by decide)⟩

/-- C5 counterexample: the claim states `releaseSeat` fails with
`NotAuthorized` whenever the requester identity does not match the
reservation's claimant.  A requester whose name is only whitespace does not
match the claimant "Ana", yet `cancelMySeat` fails with the name-required
validation alert, not the `NotAuthorized` one. -/
theorem c5_auth_counterexample :
    identityMatches (some "Ana") "   " = false ∧
    cancelMySeat authCeState 1 5 (some "Ana") "   " = .error .nameRequired ∧
    ClaimError.nameRequired ≠ ClaimError.notAuthorized :=
  ⟨rfl, rfl, by decide⟩

/-- C5 (amended): `releaseSeat` (`cancelMySeat`) fails with a name-required
validation error when the requester name is empty after trimming; with a
non-empty trimmed requester it fails `NotAuthorized` exactly when the identity
comparison (case-insensitive, requester trimmed) mismatches, and deletes the
reservation unconditionally once it matches.  `deleteOffer`
(`deleteMyVehicle`) and the Transporte `handleCancelarReserva` fail
`NotAuthorized` on any identity mismatch, leaving the store unchanged (an
error commits no write). -/
theorem c5_authorization :
    (∀ s vid rid rn nm, jsTrim nm = "" →
        cancelMySeat s vid rid rn nm = .error .nameRequired) ∧
    (∀ s vid rid rn nm, jsTrim nm ≠ "" → identityMatches rn nm = false →
        cancelMySeat s vid rid rn nm = .error .notAuthorized) ∧
    (∀ s vid rid rn nm, jsTrim nm ≠ "" → identityMatches rn nm = true →
        cancelMySeat s vid rid rn nm = .ok (removeReservationDoc s vid rid)) ∧
    (∀ s vid own nm, identityMatches own nm = false →
        deleteMyVehicle s vid own nm = .error .notAuthorized) ∧
    (∀ s nombre rid pasajero confirmed,
        (jsLower pasajero == jsLower (jsTrim nombre)) = false →
        handleCancelarReserva s nombre rid pasajero confirmed =
          .error .notAuthorized) := by
  refine ⟨?_, ?_, ?_, ?_, ?_⟩
  · intro s vid rid rn nm h0
    simp [cancelMySeat, h0]
  · intro s vid rid rn nm h0 h1
    simp [cancelMySeat, h0, h1]
  · intro s vid rid rn nm h0 h1
    simp [cancelMySeat, h0, h1]
  · intro s vid own nm h
    simp [deleteMyVehicle, h]
  · intro s nombre rid pasajero confirmed h
    simp [handleCancelarReserva, h]

/-- Witness for `c5_authorization`: "beto" can cancel neither Luz's seat nor
her Transporte reserva and cannot delete Dana's vehicle, while " LUZ " (a
trimmed, case-insensitive match) releases Luz's reservation. -/
theorem c5_authorization_witness :
    cancelMySeat authWitState 1 4 (some "Luz") "beto" = .error .notAuthorized ∧
    cancelMySeat authWitState 1 4 (some "Luz") " LUZ " =
      .ok (removeReservationDoc authWitState 1 4) ∧
    deleteMyVehicle authWitState 1 (some "Dana") "eli" = .error .notAuthorized ∧
    handleCancelarReserva cancelWitState "beto" 7 "Luz" true =
      .error .notAuthorized :=
  ⟨c5_authorization.2.1 authWitState 1 4 (some "Luz") "beto" (by decide) (by decide),
   c5_authorization.2.2.1 authWitState 1 4 (some "Luz") " LUZ " (by decide) (by decide),
   c5_authorization.2.2.2.1 authWitState 1 (some "Dana") "eli" (by decide),
   c5_authorization.2.2.2.2 cancelWitState "beto" 7 "Luz" true (by decide)⟩

/-- C6: once the owner identity matches, `deleteMyVehicle` deletes every
reservation document of the Offer and then the Offer document: the final
state holds no reservation referencing the deleted Offer and no Offer
document, and in the intermediate state (reservations already deleted) the
Offer document is still present — the reservation deletions happen before the
Offer deletion, so a Reservation never outlives its Offer. -/
theorem c6_cascade_delete (s : TourState) (vid : Nat) (own : Option String)
    (nm : String) (h : identityMatches own nm = true) :
    deleteMyVehicle s vid own nm =
      .ok (deleteVehicleDoc (deleteVehicleReservations s vid) vid) ∧
    (∀ r ∈ (deleteVehicleDoc (deleteVehicleReservations s vid) vid).reservations,
        r.vehicleId ≠ vid) ∧
    findVehicle (deleteVehicleDoc (deleteVehicleReservations s vid) vid) vid =
      none ∧
    findVehicle (deleteVehicleReservations s vid) vid = findVehicle s vid := by
  refine ⟨by simp [deleteMyVehicle, h], ?_, ?_, rfl⟩
  · intro r hr
    simp [deleteVehicleDoc, deleteVehicleReservations, List.mem_filter] at hr
    exact hr.2
  · unfold findVehicle deleteVehicleDoc deleteVehicleReservations
    apply List.find?_eq_none.mpr
    intro v hv
    simp [List.mem_filter] at hv
    simp [hv.2]

/-- Witness for `c6_cascade_delete`: the owner " dana " (trimmed,
case-insensitive match of "Dana") deletes vehicle 1; afterwards no
reservation references it and the vehicle document is gone, while the
unrelated vehicle 2 keeps its reservation. -/
theorem c6_cascade_delete_witness :
    deleteMyVehicle cascadeWitState 1 (some "Dana") " dana " =
      .ok (deleteVehicleDoc (deleteVehicleReservations cascadeWitState 1) 1) ∧
    (∀ r ∈ (deleteVehicleDoc (deleteVehicleReservations cascadeWitState 1) 1).reservations,
        r.vehicleId ≠ 1) ∧
    findVehicle (deleteVehicleDoc (deleteVehicleReservations cascadeWitState 1) 1) 1 =
      none :=
  ⟨(c6_cascade_delete cascadeWitState 1 (some "Dana") " dana " (by decide)).1,
   (c6_cascade_delete cascadeWitState 1 (some "Dana") " dana " (by decide)).2.1,
   (c6_cascade_delete cascadeWitState 1 (some "Dana") " dana " (by decide)).2.2.1⟩

/-- C7 counterexample: the claim states createOffer rejects any `totalSeats`
outside [1,50] locally, before any store write.  The Transporte handler
`handleOfrecerVehiculo` performs no seat validation at all: with seats 0 (what
`Number("")` yields for an empty field) it stages the store write, producing
an Offer document with `asientosDisponibles = 0`. -/
theorem c7_validation_counterexample :
    handleOfrecerVehiculo "Ana" "Santa Tecla" "propio" 0 =
      .ok ⟨"Ana", 0, "Santa Tecla", "propio"⟩ ∧
    ¬(1 ≤ (0 : Int) ∧ (0 : Int) ≤ 50) :=
  ⟨rfl, by decide⟩

/-- C7 (amended): the FungiTour `handleCreateVehicle` enforces all the
claimed preconditions locally — non-empty trimmed owner and seat count in
[1,50] — rejecting bad input before any store write; the Transporte
`handleOfrecerVehiculo` enforces only the non-empty trimmed owner and a
selected meeting point, and passes any seat count through to the store
unvalidated. -/
theorem c7_create_offer_validation :
    (∀ s nm t, jsTrim nm = "" →
        handleCreateVehicle s nm t = .error .nameRequired) ∧
    (∀ s nm t, jsTrim nm ≠ "" → (t < 1 ∨ 50 < t) →
        handleCreateVehicle s nm t = .error .invalidSeats) ∧
    (∀ s nm t, jsTrim nm ≠ "" → 1 ≤ t → t ≤ 50 →
        handleCreateVehicle s nm t = .ok { s with
          vehicles := s.vehicles ++ [⟨s.nextId, some (jsTrim nm), some t⟩],
          nextId := s.nextId + 1 }) ∧
    (∀ nombre punto tipo a, jsTrim nombre = "" →
        handleOfrecerVehiculo nombre punto tipo a = .error .nameRequired) ∧
    (∀ nombre tipo a, jsTrim nombre ≠ "" →
        handleOfrecerVehiculo nombre "" tipo a = .error .meetingPointRequired) ∧
    (∀ nombre punto tipo a, jsTrim nombre ≠ "" → punto ≠ "" →
        handleOfrecerVehiculo nombre punto tipo a =
          .ok ⟨jsTrim nombre, a, punto, tipo⟩) := by
  refine ⟨?_, ?_, ?_, ?_, ?_, ?_⟩
  · intro s nm t h0
    simp [handleCreateVehicle, h0]
  · intro s nm t h0 h1
    simp [handleCreateVehicle, h0, h1]
  · intro s nm t h0 h1 h2
    have h3 : ¬(t < 1 ∨ 50 < t) := by omega
    simp [handleCreateVehicle, h0, h3]
  · intro nombre punto tipo a h0
    simp [handleOfrecerVehiculo, h0]
  · intro nombre tipo a h0
    simp [handleOfrecerVehiculo, h0]
  · intro nombre punto tipo a h0 h1
    simp [handleOfrecerVehiculo, h0, h1]

/-- Witness for `c7_create_offer_validation`: "Ana" cannot create a 0-seat
FungiTour vehicle but can create a 4-seat one, while the Transporte handler
accepts a 99-seat offer untouched. -/
theorem c7_create_offer_validation_witness :
    handleCreateVehicle trimWitState "Ana" 0 = .error .invalidSeats ∧
    handleCreateVehicle trimWitState "Ana" 4 = .ok { trimWitState with
      vehicles := trimWitState.vehicles ++
        [⟨trimWitState.nextId, some (jsTrim "Ana"), some 4⟩],
      nextId := trimWitState.nextId + 1 } ∧
    handleOfrecerVehiculo "Eli" "Multiplaza" "propio" 99 =
      .ok ⟨jsTrim "Eli", 99, "Multiplaza", "propio"⟩ :=
  ⟨c7_create_offer_validation.2.1 trimWitState "Ana" 0 (by decide) (by decide),
   c7_create_offer_validation.2.2.1 trimWitState "Ana" 4
      (by decide) (by decide) (by decide),
   c7_create_offer_validation.2.2.2.2.2 "Eli" "Multiplaza" "propio" 99
      (by decide) (by decide)⟩

/-- C8 counterexample: the claim states every non-transactional seat-claim
handler performs both the AlreadyClaimed and the Full check before inserting.
`handleReservarAsiento` performs no Full check: on `fullCarState` (a two-seat
vehicle with both seats reserved) the fresh claimant "Carla" is admitted and
the insert goes through, leaving three reservations. -/
theorem c8_missing_full_check_counterexample :
    (∀ v ∈ fullCarState.vehiculos, v.asientosDisponibles = 2) ∧
    getAsientosOcupados fullCarState 1 = 2 ∧
    hasReserva fullCarState 1 "Carla" = false ∧
    handleReservarAsiento fullCarState "Carla" 1 "Dana" "Santa Tecla" =
      .ok fullCarState2 ∧
    getAsientosOcupados fullCarState2 1 = 3 :=
  ⟨by decide, rfl, rfl, rfl, rfl⟩

/-- C8 (amended): on the non-transactional paths, `handleReservarMicrobus`
performs both the AlreadyClaimed and the Full check against the locally
cached, listener-delivered lists and then inserts unconditionally, but
`handleReservarAsiento` performs only the AlreadyClaimed check against the
local view — it has no Full check and inserts whenever no duplicate is found
(the rendering layer alone hides the reserve button when the derived free
count is zero). -/
theorem c8_claim_paths :
    (∀ s nombre vid prop punto, jsTrim nombre ≠ "" →
        hasReserva s vid nombre = true →
        handleReservarAsiento s nombre vid prop punto = .error .alreadyClaimed) ∧
    (∀ s nombre vid prop punto, jsTrim nombre ≠ "" →
        hasReserva s vid nombre = false →
        handleReservarAsiento s nombre vid prop punto = .ok { s with
          reservas := s.reservas ++ [⟨s.nextId, vid, jsTrim nombre, prop, punto⟩],
          nextId := s.nextId + 1 }) ∧
    (∀ s nombre mid prop cap, jsTrim nombre ≠ "" →
        (microbusesOf s).length ≠ 0 →
        hasReservaMicro s mid nombre = true →
        handleReservarMicrobus s nombre mid prop cap = .error .alreadyClaimed) ∧
    (∀ s nombre mid prop cap, jsTrim nombre ≠ "" →
        (microbusesOf s).length ≠ 0 →
        hasReservaMicro s mid nombre = false →
        ((occupiedMicro s mid : Nat) : Int) < cap →
        handleReservarMicrobus s nombre mid prop cap = .ok { s with
          reservasMicrobus := s.reservasMicrobus ++
            [⟨s.nextId, mid, jsTrim nombre, prop⟩],
          nextId := s.nextId + 1 }) := by
  refine ⟨?_, ?_, ?_, ?_⟩
  · intro s nombre vid prop punto h0 h1
    simp [handleReservarAsiento, h0, h1]
  · intro s nombre vid prop punto h0 h1
    simp [handleReservarAsiento, h0, h1]
  · intro s nombre mid prop cap h0 h1 h2
    simp [handleReservarMicrobus, h0, h1, h2]
  · intro s nombre mid prop cap h0 h1 h2 h3
    simp [handleReservarMicrobus, h0, h1, h2, not_le.mpr h3]

/-- Witness for `c8_claim_paths`: on `pathWitState` the one-seat vehicle 1 is
already full, yet "Caro" is admitted by `handleReservarAsiento`; the
microbus 5 has a free seat and `handleReservarMicrobus` admits "Caro" after
both checks pass. -/
theorem c8_claim_paths_witness :
    getAsientosOcupados pathWitState 1 = 1 ∧
    handleReservarAsiento pathWitState "Caro" 1 "Rosa" "Metrocentro" =
      .ok pathWitState2 ∧
    handleReservarMicrobus pathWitState "Caro" 5 "Dana" 2 = .ok pathWitState3 :=
  ⟨rfl,
   c8_claim_paths.2.1 pathWitState "Caro" 1 "Rosa" "Metrocentro"
      (by decide) (by decide),
   c8_claim_paths.2.2.2 pathWitState "Caro" 5 "Dana" 2
      (by decide) (by decide) (by decide) (by decide)⟩

/-- C9: the free-seat count the FungiTour card derives equals
`max(totalSeats - reservationCount, 0)`: it is never negative, it is clamped
to zero even when the committed reservation count exceeds `totalSeats`, and
the reserve control is enabled exactly when this clamped count is positive
(`disabled={free === 0}`). -/
theorem c9_free_seats (s : TourState) (v : Vehicle) :
    0 ≤ freeSeats s v ∧
    freeSeats s v = max (totalSeatsOf v - (takenSeats s v.id : Int)) 0 ∧
    (totalSeatsOf v < (takenSeats s v.id : Int) → freeSeats s v = 0) ∧
    (reserveEnabled s v = true ↔ 0 < freeSeats s v) := by
  refine ⟨le_max_right _ _, rfl, ?_, ?_⟩
  · intro h
    unfold freeSeats
    omega
  · have h0 : 0 ≤ freeSeats s v := le_max_right _ _
    unfold reserveEnabled
    constructor
    · intro h
      have hne : freeSeats s v ≠ 0 := by
        intro he
        simp [he] at h
      omega
    · intro h
      simp only [Bool.not_eq_eq_eq_not, Bool.not_true, beq_eq_false_iff_ne, ne_eq]
      omega

/-- Witness for `c9_free_seats`: on the overbooked `overbookedState` (two
seats, three committed reservations) the derived free count is clamped to 0
and the reserve control is not enabled. -/
theorem c9_free_seats_witness :
    freeSeats overbookedState overbookedVehicle = 0 ∧
    (reserveEnabled overbookedState overbookedVehicle = true ↔
      0 < freeSeats overbookedState overbookedVehicle) :=
  ⟨(c9_free_seats overbookedState overbookedVehicle).2.2.1 (by decide),
   (c9_free_seats overbookedState overbookedVehicle).2.2.2⟩

/-- C10: every identity string a handler writes to the store — payment name,
bus-signup name, vehicle owner name, reservation claimant name on every claim
path of both variants (`reserveSeat`, `handleReservarAsiento`,
`handleReservarMicrobus`) and the Transporte offer owner — is the
whitespace-trimmed form of the entered name, and every such write required
the trimmed name to be non-empty. -/
theorem c10_trimmed_identities :
    (∀ s nm s2, handlePayment s nm = .ok s2 →
        s2.payments = s.payments ++ [jsTrim nm] ∧ jsTrim nm ≠ "") ∧
    (∀ s nm s2, handleJoinBus s nm = .ok s2 →
        s2.busSignups = s.busSignups ++ [jsTrim nm] ∧ jsTrim nm ≠ "") ∧
    (∀ s nm t s2, handleCreateVehicle s nm t = .ok s2 →
        s2.vehicles = s.vehicles ++ [⟨s.nextId, some (jsTrim nm), some t⟩] ∧
        jsTrim nm ≠ "") ∧
    (∀ s vid nm s2, reserveSeat s vid nm = .ok s2 →
        s2.reservations = s.reservations ++ [⟨vid, s.nextId, some (jsTrim nm)⟩] ∧
        jsTrim nm ≠ "") ∧
    (∀ nombre punto tipo a w, handleOfrecerVehiculo nombre punto tipo a = .ok w →
        w.propietario = jsTrim nombre ∧ jsTrim nombre ≠ "") ∧
    (∀ s nombre vid prop punto s2,
        handleReservarAsiento s nombre vid prop punto = .ok s2 →
        s2.reservas = s.reservas ++ [⟨s.nextId, vid, jsTrim nombre, prop, punto⟩] ∧
        jsTrim nombre ≠ "") ∧
    (∀ s nombre mid prop cap s2,
        handleReservarMicrobus s nombre mid prop cap = .ok s2 →
        s2.reservasMicrobus = s.reservasMicrobus ++
          [⟨s.nextId, mid, jsTrim nombre, prop⟩] ∧
        jsTrim nombre ≠ "") := by
  refine ⟨?_, ?_, ?_, ?_, ?_, ?_, ?_⟩
  · intro s nm s2 hok
    by_cases h0 : jsTrim nm = ""
    · simp [handlePayment, h0] at hok
    · simp [handlePayment, h0] at hok
      exact ⟨by rw [← hok], h0⟩
  · intro s nm s2 hok
    by_cases h0 : jsTrim nm = ""
    · simp [handleJoinBus, h0] at hok
    · simp [handleJoinBus, h0] at hok
      exact ⟨by rw [← hok], h0⟩
  · intro s nm t s2 hok
    by_cases h0 : jsTrim nm = ""
    · simp [handleCreateVehicle, h0] at hok
    · by_cases h1 : t < 1 ∨ 50 < t
      · simp [handleCreateVehicle, h0, h1] at hok
      · simp [handleCreateVehicle, h0, h1] at hok
        exact ⟨by rw [← hok], h0⟩
  · intro s vid nm s2 hok
    by_cases h0 : jsTrim nm = ""
    · simp [reserveSeat, h0] at hok
    · cases hfv : findVehicle s vid with
      | none => simp [reserveSeat, reserveSeatTxBody, h0, hfv] at hok
      | some v =>
        by_cases h1 : v.seatsTotal.getD 0 ≤ ((resFor s vid).length : Int)
        · simp [reserveSeat, reserveSeatTxBody, h0, hfv, h1] at hok
        · by_cases h2 : ((resFor s vid).any
              (fun r => jsLower (r.rname.getD "") == jsLower (jsTrim nm))) = true
          · simp [reserveSeat, reserveSeatTxBody, h0, hfv, h1, h2] at hok
          · simp [reserveSeat, reserveSeatTxBody, pushReservation,
              h0, hfv, h1, h2] at hok
            exact ⟨by rw [← hok], h0⟩
  · intro nombre punto tipo a w hok
    by_cases h0 : jsTrim nombre = ""
    · simp [handleOfrecerVehiculo, h0] at hok
    · by_cases h1 : punto = ""
      · simp [handleOfrecerVehiculo, h0, h1] at hok
      · simp [handleOfrecerVehiculo, h0, h1] at hok
        exact ⟨by rw [← hok], h0⟩
  · intro s nombre vid prop punto s2 hok
    by_cases h0 : jsTrim nombre = ""
    · simp [handleReservarAsiento, h0] at hok
    · by_cases h1 : hasReserva s vid nombre = true
      · simp [handleReservarAsiento, h0, h1] at hok
      · simp [handleReservarAsiento, h0, h1] at hok
        exact ⟨by rw [← hok], h0⟩
  · intro s nombre mid prop cap s2 hok
    by_cases h0 : jsTrim nombre = ""
    · simp [handleReservarMicrobus, h0] at hok
    · by_cases h1 : (microbusesOf s).length = 0
      · simp [handleReservarMicrobus, h0, h1] at hok
      · by_cases h2 : hasReservaMicro s mid nombre = true
        · simp [handleReservarMicrobus, h0, h1, h2] at hok
        · by_cases h3 : cap ≤ ((occupiedMicro s mid : Nat) : Int)
          · simp [handleReservarMicrobus, h0, h1, h2, h3] at hok
          · simp [handleReservarMicrobus, h0, h1, h2, h3] at hok
            exact ⟨by rw [← hok], h0⟩

/-- Witness for `c10_trimmed_identities`: the entered name " Ana " is written
as "Ana" by a payment and by a transactional seat claim, and the entered name
" Caro " is written as "Caro" by a microbus claim. -/
theorem c10_trimmed_identities_witness :
    (trimWitState2.payments = trimWitState.payments ++ [jsTrim " Ana "] ∧
      jsTrim " Ana " ≠ "") ∧
    (trimWitState3.reservations = trimWitState.reservations ++
        [⟨1, trimWitState.nextId, some (jsTrim " Ana ")⟩] ∧
      jsTrim " Ana " ≠ "") ∧
    (pathWitState3.reservasMicrobus = pathWitState.reservasMicrobus ++
        [⟨pathWitState.nextId, 5, jsTrim " Caro ", "Dana"⟩] ∧
      jsTrim " Caro " ≠ "") :=
  ⟨c10_trimmed_identities.1 trimWitState " Ana " trimWitState2 rfl,
   c10_trimmed_identities.2.2.2.1 trimWitState 1 " Ana " trimWitState3 rfl,
   c10_trimmed_identities.2.2.2.2.2.2 pathWitState " Caro " 5 "Dana" 2
      pathWitState3 rfl⟩
